import Mathlib

/-!
Shallow embedding of the rooftop rainwater-harvesting assessment engine
(`postAssess` and its helpers in the calculation service, together with the
roof-coefficient table and the hydrogeological zone table).

JavaScript numbers are idealised as exact rationals (`ℚ`).  The two ambient
`Math.random()` draws are passed in explicitly as parameters (`rainRand`,
`depthRand`), each ranging over `[0, 1)`.  `Math.round`, `Math.ceil` and
`parseFloat(x.toFixed(1))` are modelled exactly on rationals (`toFixed`
rounds half away from zero, `Math.round` rounds half up); `Math.PI` is the
exact rational value of the IEEE-754 double `Math.PI`.  Template-string
interpolation of a number is idealised by `jsNumToString` (exact for the
integer-valued inputs exercised here).
-/

/-- JavaScript `Math.round`: round half up. -/
def jsRound (q : ℚ) : ℤ := ⌊q + 1/2⌋

/-- JavaScript `Math.ceil`. -/
def jsCeil (q : ℚ) : ℤ := ⌈q⌉

/-- JavaScript `parseFloat(x.toFixed(1))`: round to one decimal, ties away from zero. -/
def jsToFixed1 (q : ℚ) : ℚ :=
  if 0 ≤ q then (⌊q * 10 + 1/2⌋ : ℚ) / 10 else -((⌊-q * 10 + 1/2⌋ : ℚ) / 10)

/-- The exact rational value of the IEEE-754 double constant `Math.PI`. -/
def MathPI : ℚ := 884279719003555 / 281474976710656

/-- JavaScript `${n}` for a number, idealised (exact on integers). -/
def jsNumToString (q : ℚ) : String :=
  if q.den = 1 then toString q.num else toString q

/-- JavaScript `o || dflt` on a nullable number: `null` and `0` are falsy. -/
def jsOrDefault (o : Option ℚ) (dflt : ℚ) : ℚ :=
  match o with
  | none => dflt
  | some d => if d = 0 then dflt else d

/-- `RoofType` from `types.ts`. -/
inductive RoofType where
  | metal | tile | asphalt | thatch | rcc
deriving DecidableEq, Repr

/-- `ROOF_COEFFICIENTS` from `constants.ts`. -/
def ROOF_COEFFICIENTS : RoofType → ℚ
  | .metal => 95/100
  | .tile => 90/100
  | .rcc => 90/100
  | .asphalt => 85/100
  | .thatch => 60/100

/-- `AssessmentInput` from `types.ts`. -/
structure AssessmentInput where
  lat : ℚ
  lon : ℚ
  roofAreaM2 : ℚ
  roofType : RoofType
  openSpaceM2 : ℚ
  dwellers : ℚ
  consentToStore : Bool
deriving DecidableEq, Repr

/-- The `type` tag of `RecommendedStructure` from `types.ts`. -/
inductive StructureType where
  | pit | trench | shaft
deriving DecidableEq, Repr

/-- The `dimensions` record of `RecommendedStructure` (all fields optional in TS). -/
structure Dimensions where
  depthM : Option ℚ := none
  areaM2 : Option ℚ := none
  lengthM : Option ℚ := none
  widthM : Option ℚ := none
deriving DecidableEq, Repr

/-- `RecommendedStructure` from `types.ts`. -/
structure RecommendedStructure where
  type : StructureType
  dimensions : Dimensions
  volumeM3 : ℚ
  costInr : ℤ
  count : Option ℤ := none
deriving DecidableEq, Repr

/-- `Feasibility` from `types.ts`. -/
inductive Feasibility where
  | Green | Yellow | Red
deriving DecidableEq, Repr

/-- `CostBenefit` from `types.ts`. -/
structure CostBenefit where
  paybackPeriodYears : Option ℚ
  annualSavingsInr : ℤ
deriving DecidableEq, Repr

/-- `HydrogeologicalZone` from the hydrogeological data module. -/
structure HydrogeologicalZone where
  name : String
  latRange : ℚ × ℚ
  depthToGroundwaterRangeM : ℚ × ℚ
  aquiferType : String
  rechargeSuitability : String
deriving DecidableEq, Repr

/-- `AssessmentResult` from `types.ts`. -/
structure AssessmentResult where
  annualRainMm : ℚ
  monsoonRainMm : ℚ
  runoffCoeff : ℚ
  annualHarvestM3 : ℚ
  monsoonHarvestM3 : ℚ
  recommendedStructures : List RecommendedStructure
  depthToGroundwaterM : Option ℚ
  aquiferNote : String
  feasibility : Feasibility
  costEstimateInr : ℤ
  costBenefit : CostBenefit
  locationName : String
  systemEfficiency : ℚ
deriving DecidableEq, Repr

/-- The `ZONES` table entry for the Northern Alluvial Plains. -/
def zoneNorthernAlluvial : HydrogeologicalZone :=
  { name := "Northern Alluvial Plains (Indo-Gangetic)"
  , latRange := (25, 32)
  , depthToGroundwaterRangeM := (8, 25)
  , aquiferType := "Deep, multi-layered alluvial sand and gravel aquifers."
  , rechargeSuitability := "Excellent for various recharge structures, particularly shafts and trenches due to high permeability." }

/-- The `ZONES` table entry for the Central Highlands. -/
def zoneCentralHighlands : HydrogeologicalZone :=
  { name := "Central Highlands (Bundelkhand, etc.)"
  , latRange := (22, 25)
  , depthToGroundwaterRangeM := (10, 35)
  , aquiferType := "Weathered and fractured hard rock (granite, gneiss)."
  , rechargeSuitability := "Moderate. Recharge is effective through existing fractures. Dug wells and pits are common." }

/-- The `ZONES` table entry for the Peninsular Hard Rock Zone. -/
def zonePeninsularHardRock : HydrogeologicalZone :=
  { name := "Peninsular Hard Rock Zone (Deccan Plateau)"
  , latRange := (12, 22)
  , depthToGroundwaterRangeM := (5, 45)
  , aquiferType := "Complex fractured basalt (Deccan Traps) and crystalline rocks."
  , rechargeSuitability := "Variable. Success depends on targeting fracture zones. Recharge pits and trenches along drainage lines are effective." }

/-- The `ZONES` table entry for the Coastal Sedimentary Zone. -/
def zoneCoastalSedimentary : HydrogeologicalZone :=
  { name := "Coastal Sedimentary Zone"
  , latRange := (8, 16)
  , depthToGroundwaterRangeM := (2, 10)
  , aquiferType := "Shallow sand and clay layers, often with saline water intrusion risks."
  , rechargeSuitability := "Good, but requires careful management to avoid contamination. Shallow recharge pits are preferred over deep shafts." }

/-- The `ZONES` table entry for the Western Arid Zone. -/
def zoneWesternArid : HydrogeologicalZone :=
  { name := "Western Arid Zone (Rajasthan/Gujarat)"
  , latRange := (24, 30)
  , depthToGroundwaterRangeM := (20, 100)
  , aquiferType := "Deep sandy aquifers with low and erratic rainfall."
  , rechargeSuitability := "Critical but challenging. Large-scale structures are often needed, but rooftop harvesting is highly valuable for direct use." }

/-- The `ZONES` table. -/
def ZONES : List HydrogeologicalZone :=
  [zoneNorthernAlluvial, zoneCentralHighlands, zonePeninsularHardRock,
   zoneCoastalSedimentary, zoneWesternArid]

/-- `FALLBACK_ZONE` for latitudes outside every entry of the table. -/
def FALLBACK_ZONE : HydrogeologicalZone :=
  { name := "Mixed Geological Area"
  , latRange := (0, 50)
  , depthToGroundwaterRangeM := (5, 20)
  , aquiferType := "Variable local geology."
  , rechargeSuitability := "Site-specific investigation recommended. Standard pits and trenches are generally applicable." }

/-- `getHydrogeologicalZone`: first zone whose half-open latitude range contains
`lat`, the fallback zone otherwise. -/
def getHydrogeologicalZone (lat : ℚ) : HydrogeologicalZone :=
  (ZONES.find? (fun z => decide (z.latRange.1 ≤ lat) && decide (lat < z.latRange.2))).getD
    FALLBACK_ZONE

/-- `SYSTEM_EFFICIENCY` constant of the calculation service. -/
def SYSTEM_EFFICIENCY : ℚ := 90/100

/-- `calculateHarvestableVolume` of the calculation service. -/
def calculateHarvestableVolume (rainfallMm areaM2 coeff : ℚ) : ℚ :=
  (rainfallMm / 1000) * areaM2 * coeff * SYSTEM_EFFICIENCY

/-- `targetRechargeFactor` inside `recommendStructure`:
`Math.min(0.9, 0.7 + (Math.max(0, dwellers - 2) * 0.05))`. -/
def targetRechargeFactor (dwellers : ℚ) : ℚ :=
  min (9/10) (7/10 + max 0 (dwellers - 2) * (5/100))

/-- `targetRechargeVolumeM3` inside `recommendStructure`. -/
def targetRechargeVolumeM3 (harvestVolumeM3 dwellers : ℚ) : ℚ :=
  harvestVolumeM3 * targetRechargeFactor dwellers

/-- `percolationFactor` heuristic constant inside `recommendStructure`. -/
def percolationFactor : ℚ := 5

/-- `filterMediaPorosity` heuristic constant inside `recommendStructure`. -/
def filterMediaPorosity : ℚ := 4/10

/-- `isDeepWaterTable`: JS `depthToGroundwaterM && depthToGroundwaterM > 12`
(`null` and `0` are falsy; `0 > 12` is false anyway). -/
def isDeepWaterTable (depthToGroundwaterM : Option ℚ) : Bool :=
  match depthToGroundwaterM with
  | none => false
  | some d => decide (12 < d)

/-- Shaft depth: `Math.max(8, Math.min(25, (depthToGroundwaterM || 15) * 0.7))`. -/
def shaftDepthOf (depthToGroundwaterM : Option ℚ) : ℚ :=
  max 8 (min 25 (jsOrDefault depthToGroundwaterM 15 * (7/10)))

/-- Shaft cross-section: `Math.PI * (diameter/2)**2` with diameter 1. -/
def shaftCrossSectionArea : ℚ := MathPI * (1/2)^2

/-- Shaft recharge capacity: physical cylinder volume × porosity × percolation. -/
def shaftRechargeCapacity (depthToGroundwaterM : Option ℚ) : ℚ :=
  shaftCrossSectionArea * shaftDepthOf depthToGroundwaterM * filterMediaPorosity *
    percolationFactor

/-- The shaft entry pushed by rule 1 of `recommendStructure`. -/
def shaftEntry (depthToGroundwaterM : Option ℚ) : RecommendedStructure :=
  { type := .shaft
  , dimensions :=
      { depthM := some (jsToFixed1 (shaftDepthOf depthToGroundwaterM))
      , areaM2 := some (jsToFixed1 shaftCrossSectionArea) }
  , volumeM3 := jsToFixed1 (shaftRechargeCapacity depthToGroundwaterM)
  , costInr := jsRound (8000 + 1000 * shaftDepthOf depthToGroundwaterM)
  , count := some 1 }

/-- Trench recharge capacity per meter of length: cross-section 1 m × 1.5 m,
times porosity, times percolation (= 3). -/
def trenchRechargeCapacityPerMeter : ℚ :=
  (1 * (3/2)) * filterMediaPorosity * percolationFactor

/-- Trench length: `Math.min(requiredLength, maxLengthForSpace, 40)` with
`requiredLength = remaining / capacityPerMeter` and
`maxLengthForSpace = openSpace / width` (width 1). -/
def trenchFinalLength (remainingVolumeToRecharge openSpaceM2 : ℚ) : ℚ :=
  min (remainingVolumeToRecharge / trenchRechargeCapacityPerMeter)
    (min (openSpaceM2 / 1) 40)

/-- The trench entry pushed by rule 2 of `recommendStructure`. -/
def trenchEntry (remainingVolumeToRecharge openSpaceM2 : ℚ) : RecommendedStructure :=
  { type := .trench
  , dimensions :=
      { lengthM := some (jsToFixed1 (trenchFinalLength remainingVolumeToRecharge openSpaceM2))
      , widthM := some 1
      , depthM := some (3/2) }
  , volumeM3 := jsToFixed1
      (trenchFinalLength remainingVolumeToRecharge openSpaceM2 * trenchRechargeCapacityPerMeter)
  , costInr := jsRound
      (2000 + 500 * trenchFinalLength remainingVolumeToRecharge openSpaceM2)
  , count := some 1 }

/-- Pit footprint: `Math.max(minWidth², Math.min(maxWidth², openSpace * 0.6))`. -/
def pitArea (openSpaceM2 : ℚ) : ℚ :=
  max ((3/2)^2) (min (4^2) (openSpaceM2 * (6/10)))

/-- Pit physical volume: footprint × depth 3. -/
def pitPhysicalVolume (openSpaceM2 : ℚ) : ℚ := pitArea openSpaceM2 * 3

/-- Pit recharge capacity per pit: physical volume × porosity × percolation. -/
def pitRechargeCapacityPerPit (openSpaceM2 : ℚ) : ℚ :=
  pitPhysicalVolume openSpaceM2 * filterMediaPorosity * percolationFactor

/-- Number of pits: `Math.min(Math.ceil(remaining / capacityPerPit), 3)`. -/
def pitCount (remainingVolumeToRecharge openSpaceM2 : ℚ) : ℤ :=
  min (jsCeil (remainingVolumeToRecharge / pitRechargeCapacityPerPit openSpaceM2)) 3

/-- The pit entry pushed by rule 3 of `recommendStructure`. -/
def pitEntry (remainingVolumeToRecharge openSpaceM2 : ℚ) : RecommendedStructure :=
  { type := .pit
  , dimensions :=
      { areaM2 := some (jsToFixed1 (pitArea openSpaceM2))
      , depthM := some 3 }
  , volumeM3 := jsToFixed1
      (pitRechargeCapacityPerPit openSpaceM2 * pitCount remainingVolumeToRecharge openSpaceM2)
  , costInr := jsRound
      ((2500 + 250 * pitPhysicalVolume openSpaceM2) *
        pitCount remainingVolumeToRecharge openSpaceM2)
  , count := some (pitCount remainingVolumeToRecharge openSpaceM2) }

/-- `recommendStructure` of the calculation service: the three-rule greedy
cascade (shaft, then trench, then pit), threading the remaining unsatisfied
volume through the stages.  The imperative push/subtract pairs are rendered
as pure conditionals with the stage condition repeated. -/
def recommendStructure (harvestVolumeM3 openSpaceM2 : ℚ)
    (depthToGroundwaterM : Option ℚ) (dwellers : ℚ) : List RecommendedStructure :=
  if openSpaceM2 < 2 then [] else
  if targetRechargeVolumeM3 harvestVolumeM3 dwellers ≤ 2 then [] else
  let recs1 : List RecommendedStructure :=
    if isDeepWaterTable depthToGroundwaterM = true ∧ 2 ≤ openSpaceM2 ∧
        20 < targetRechargeVolumeM3 harvestVolumeM3 dwellers then
      [shaftEntry depthToGroundwaterM]
    else []
  let rem1 : ℚ :=
    if isDeepWaterTable depthToGroundwaterM = true ∧ 2 ≤ openSpaceM2 ∧
        20 < targetRechargeVolumeM3 harvestVolumeM3 dwellers then
      targetRechargeVolumeM3 harvestVolumeM3 dwellers - shaftRechargeCapacity depthToGroundwaterM
    else targetRechargeVolumeM3 harvestVolumeM3 dwellers
  let recs2 : List RecommendedStructure :=
    if 40 < rem1 ∧ 10 ≤ openSpaceM2 ∧ 0 < trenchRechargeCapacityPerMeter ∧
        2 < trenchFinalLength rem1 openSpaceM2 then
      recs1 ++ [trenchEntry rem1 openSpaceM2]
    else recs1
  let rem2 : ℚ :=
    if 40 < rem1 ∧ 10 ≤ openSpaceM2 ∧ 0 < trenchRechargeCapacityPerMeter ∧
        2 < trenchFinalLength rem1 openSpaceM2 then
      rem1 - trenchFinalLength rem1 openSpaceM2 * trenchRechargeCapacityPerMeter
    else rem1
  if 5 < rem2 ∧ 4 ≤ openSpaceM2 ∧ 0 < pitRechargeCapacityPerPit openSpaceM2 then
    recs2 ++ [pitEntry rem2 openSpaceM2]
  else recs2

/-- `calculateCostBenefit` of the calculation service. -/
def calculateCostBenefit (cost annualHarvestM3 : ℚ) : CostBenefit :=
  let annualSavingsInr : ℤ := jsRound (annualHarvestM3 * 20)
  { paybackPeriodYears :=
      if 0 < annualSavingsInr then some (jsToFixed1 (cost / annualSavingsInr)) else none
  , annualSavingsInr := annualSavingsInr }

/-- Normalised latitude inside `postAssess`:
`Math.max(0, Math.min(1, (lat - minLat) / (maxLat - minLat)))` with the band 8..37. -/
def normalizedLat (lat : ℚ) : ℚ := max 0 (min 1 ((lat - 8) / (37 - 8)))

/-- `baseRain` inside `postAssess`: interpolate between 2500 mm (south) and 300 mm (north). -/
def baseRain (lat : ℚ) : ℚ := 2500 - normalizedLat lat * (2500 - 300)

/-- `annualRainMm` inside `postAssess`: base rain plus jitter `(Math.random() - 0.5) * 200`. -/
def annualRainMmOf (lat rainRand : ℚ) : ℚ := baseRain lat + (rainRand - 1/2) * 200

/-- `monsoonRainMm` inside `postAssess`: `annualRainMm * 0.8`. -/
def monsoonRainMmOf (lat rainRand : ℚ) : ℚ := annualRainMmOf lat rainRand * (8/10)

/-- `depthToGroundwaterM` inside `postAssess`: uniform sample in the resolved
zone's depth range, `minDepth + Math.random() * (maxDepth - minDepth)`. -/
def depthToGroundwaterOf (lat depthRand : ℚ) : ℚ :=
  (getHydrogeologicalZone lat).depthToGroundwaterRangeM.1 +
    depthRand * ((getHydrogeologicalZone lat).depthToGroundwaterRangeM.2 -
      (getHydrogeologicalZone lat).depthToGroundwaterRangeM.1)

/-- `annualHarvestM3` inside `postAssess` (before rounding for display). -/
def annualHarvestOf (input : AssessmentInput) (rainRand : ℚ) : ℚ :=
  calculateHarvestableVolume (annualRainMmOf input.lat rainRand) input.roofAreaM2
    (ROOF_COEFFICIENTS input.roofType)

/-- `monsoonHarvestM3` inside `postAssess` (before rounding for display). -/
def monsoonHarvestOf (input : AssessmentInput) (rainRand : ℚ) : ℚ :=
  calculateHarvestableVolume (monsoonRainMmOf input.lat rainRand) input.roofAreaM2
    (ROOF_COEFFICIENTS input.roofType)

/-- `recommendedStructures` inside `postAssess`. -/
def recommendedOf (input : AssessmentInput) (rainRand depthRand : ℚ) :
    List RecommendedStructure :=
  recommendStructure (monsoonHarvestOf input rainRand) input.openSpaceM2
    (some (depthToGroundwaterOf input.lat depthRand)) input.dwellers

/-- `totalCost` inside `postAssess`: sum of the structures' costs. -/
def totalCostOf (input : AssessmentInput) (rainRand depthRand : ℚ) : ℤ :=
  ((recommendedOf input rainRand depthRand).map (·.costInr)).sum

/-- `feasibilityScore` inside `postAssess`. -/
def feasibilityScore (roofAreaM2 annualRainMm openSpaceM2 : ℚ) : ℚ :=
  (roofAreaM2 / 200) * 30 + (annualRainMm / 1200) * 30 + 25 + (openSpaceM2 / 50) * 15

/-- The Green/Yellow/Red classification of the feasibility score inside `postAssess`. -/
def classifyFeasibility (score : ℚ) : Feasibility :=
  if 75 ≤ score then .Green else if 40 ≤ score then .Yellow else .Red

/-- The default, zone-specific aquifer note template inside `postAssess`. -/
def zoneNote (zone : HydrogeologicalZone) : String :=
  "This area is part of the " ++ zone.name ++ ". Aquifer Type: " ++ zone.aquiferType ++
    " Recharge Suitability: " ++ zone.rechargeSuitability

/-- The overriding aquifer note template inside `postAssess` used when no
structure was recommended despite harvestable volume. -/
def spaceLimitedNote (openSpaceM2 : ℚ) : String :=
  "While there is harvestable water, the available open space (" ++
    jsNumToString openSpaceM2 ++
    " m²) is too limited for a standard recharge structure. Consider redirecting runoff to a nearby existing well or a larger green space if possible."

/-- `aquiferNote` inside `postAssess`: the zone note, overridden when the
structure list is empty and the monsoon harvest exceeds 2 m³. -/
def aquiferNoteOf (input : AssessmentInput) (rainRand depthRand : ℚ) : String :=
  if (recommendedOf input rainRand depthRand).length = 0 ∧
      2 < monsoonHarvestOf input rainRand then
    spaceLimitedNote input.openSpaceM2
  else zoneNote (getHydrogeologicalZone input.lat)

/-- The `AssessmentResult` record built at the end of `postAssess`. -/
def assessResult (input : AssessmentInput) (rainRand depthRand : ℚ) : AssessmentResult :=
  { annualRainMm := jsToFixed1 (annualRainMmOf input.lat rainRand)
  , monsoonRainMm := jsToFixed1 (monsoonRainMmOf input.lat rainRand)
  , runoffCoeff := ROOF_COEFFICIENTS input.roofType
  , annualHarvestM3 := jsToFixed1 (annualHarvestOf input rainRand)
  , monsoonHarvestM3 := jsToFixed1 (monsoonHarvestOf input rainRand)
  , recommendedStructures := recommendedOf input rainRand depthRand
  , depthToGroundwaterM := some (jsToFixed1 (depthToGroundwaterOf input.lat depthRand))
  , aquiferNote := aquiferNoteOf input rainRand depthRand
  , feasibility := classifyFeasibility
      (feasibilityScore input.roofAreaM2 (annualRainMmOf input.lat rainRand) input.openSpaceM2)
  , costEstimateInr := totalCostOf input rainRand depthRand
  , costBenefit := calculateCostBenefit (totalCostOf input rainRand depthRand)
      (annualHarvestOf input rainRand)
  , locationName := "your selected area"
  , systemEfficiency := SYSTEM_EFFICIENCY }

/-- `postAssess` of the calculation service: the promise always resolves (the
code contains no rejection path), so the fallible interface is an `Except`
that is always `ok`. -/
def postAssess (input : AssessmentInput) (rainRand depthRand : ℚ) :
    Except String AssessmentResult :=
  .ok (assessResult input rainRand depthRand)

/-! ### Numeric helper lemmas about the JS rounding operations -/

lemma jsRound_nonneg {q : ℚ} (h : 0 ≤ q) : 0 ≤ jsRound q := by
  have : ((0 : ℤ) : ℚ) ≤ q + 1/2 := by push_cast; linarith
  exact Int.le_floor.mpr this

lemma jsToFixed1_zero : jsToFixed1 0 = 0 := by norm_num [jsToFixed1]

lemma jsToFixed1_nonneg {q : ℚ} (h : 0 ≤ q) : 0 ≤ jsToFixed1 q := by
  rw [jsToFixed1, if_pos h]
  have : ((0 : ℤ) : ℚ) ≤ q * 10 + 1/2 := by push_cast; linarith
  have hf : (0 : ℤ) ≤ ⌊q * 10 + 1/2⌋ := Int.le_floor.mpr this
  have : (0 : ℚ) ≤ (⌊q * 10 + 1/2⌋ : ℚ) := by exact_mod_cast hf
  linarith

lemma jsToFixed1_mono_of_nonneg {a b : ℚ} (h0 : 0 ≤ a) (hab : a ≤ b) :
    jsToFixed1 a ≤ jsToFixed1 b := by
  rw [jsToFixed1, if_pos h0, jsToFixed1, if_pos (le_trans h0 hab)]
  have hf : ⌊a * 10 + 1/2⌋ ≤ ⌊b * 10 + 1/2⌋ := Int.floor_le_floor (by linarith)
  have : ((⌊a * 10 + 1/2⌋ : ℤ) : ℚ) ≤ ((⌊b * 10 + 1/2⌋ : ℤ) : ℚ) := by exact_mod_cast hf
  linarith

lemma int_le_jsToFixed1 {m : ℤ} {q : ℚ} (h0 : 0 ≤ q) (h : (m : ℚ) ≤ q) :
    (m : ℚ) ≤ jsToFixed1 q := by
  rw [jsToFixed1, if_pos h0]
  have hf : (10 * m : ℤ) ≤ ⌊q * 10 + 1/2⌋ := Int.le_floor.mpr (by push_cast; linarith)
  have : ((10 * m : ℤ) : ℚ) ≤ ((⌊q * 10 + 1/2⌋ : ℤ) : ℚ) := by exact_mod_cast hf
  push_cast at this
  linarith

lemma jsToFixed1_le_int {M : ℤ} {q : ℚ} (h0 : 0 ≤ q) (h : q ≤ (M : ℚ)) :
    jsToFixed1 q ≤ (M : ℚ) := by
  rw [jsToFixed1, if_pos h0]
  have hf : ⌊q * 10 + 1/2⌋ ≤ 10 * M := by
    have : ⌊q * 10 + 1/2⌋ ≤ ⌊(10 * M : ℚ) + 1/2⌋ := Int.floor_le_floor (by linarith)
    have heq : ⌊(10 * M : ℚ) + 1/2⌋ = 10 * M := by
      rw [show ((10 * M : ℚ) + 1/2) = ((10 * M : ℤ) : ℚ) + 1/2 by push_cast; ring]
      rw [Int.floor_int_add]
      norm_num
    omega
  have : ((⌊q * 10 + 1/2⌋ : ℤ) : ℚ) ≤ ((10 * M : ℤ) : ℚ) := by exact_mod_cast hf
  push_cast at this
  linarith

lemma jsRound_eq {q : ℚ} {n : ℤ} (h1 : (n : ℚ) ≤ q + 1/2) (h2 : q + 1/2 < (n : ℚ) + 1) :
    jsRound q = n := by
  rw [jsRound]
  exact Int.floor_eq_iff.mpr ⟨h1, by linarith⟩

/-! ### Basic facts about the engine's components -/

lemma roof_coeff_pos (rt : RoofType) : 0 < ROOF_COEFFICIENTS rt := by
  cases rt <;> norm_num [ROOF_COEFFICIENTS]

lemma normalizedLat_bounds (lat : ℚ) : 0 ≤ normalizedLat lat ∧ normalizedLat lat ≤ 1 := by
  unfold normalizedLat
  constructor
  · exact le_max_left 0 _
  · exact max_le (by norm_num) (min_le_left 1 _)

lemma baseRain_bounds (lat : ℚ) : 300 ≤ baseRain lat ∧ baseRain lat ≤ 2500 := by
  obtain ⟨h0, h1⟩ := normalizedLat_bounds lat
  unfold baseRain
  constructor <;> nlinarith

lemma annualRain_lower {lat rainRand : ℚ} (h0 : 0 ≤ rainRand) :
    200 ≤ annualRainMmOf lat rainRand := by
  obtain ⟨hb, _⟩ := baseRain_bounds lat
  unfold annualRainMmOf
  nlinarith

lemma monsoonHarvest_eq (input : AssessmentInput) (rainRand : ℚ) :
    monsoonHarvestOf input rainRand = (8/10) * annualHarvestOf input rainRand := by
  unfold monsoonHarvestOf annualHarvestOf calculateHarvestableVolume monsoonRainMmOf
  ring

lemma annualHarvestOf_nonneg {input : AssessmentInput} {rainRand : ℚ}
    (h0 : 0 ≤ rainRand) (ha : 0 ≤ input.roofAreaM2) : 0 ≤ annualHarvestOf input rainRand := by
  have hr : 0 ≤ annualRainMmOf input.lat rainRand := le_trans (by norm_num) (annualRain_lower h0)
  have hc : 0 ≤ ROOF_COEFFICIENTS input.roofType := (roof_coeff_pos _).le
  unfold annualHarvestOf calculateHarvestableVolume SYSTEM_EFFICIENCY
  positivity

/-- C3: with open space strictly below 2 m² the recommender returns the empty
list, whatever the harvest volume, groundwater depth and household size are. -/
theorem c3_small_open_space_empty (harvestVolumeM3 openSpaceM2 : ℚ)
    (depthToGroundwaterM : Option ℚ) (dwellers : ℚ) (h : openSpaceM2 < 2) :
    recommendStructure harvestVolumeM3 openSpaceM2 depthToGroundwaterM dwellers = [] := by
  unfold recommendStructure
  rw [if_pos h]

theorem c3_small_open_space_empty_witness :
    (1 : ℚ) < 2 ∧ recommendStructure 1000 1 (some 30) 6 = [] :=
  ⟨by norm_num, c3_small_open_space_empty 1000 1 (some 30) 6 (by norm_num)⟩

/-- C4: the recommender's target volume is `harvest × min(0.9, 0.7 +
max(0, dwellers − 2) × 0.05)`, and whenever that target is at most 2 m³ the
recommender returns the empty list. -/
theorem c4_negligible_target_empty (harvestVolumeM3 openSpaceM2 : ℚ)
    (depthToGroundwaterM : Option ℚ) (dwellers : ℚ) :
    targetRechargeVolumeM3 harvestVolumeM3 dwellers =
      harvestVolumeM3 * min (9/10) (7/10 + max 0 (dwellers - 2) * (5/100))
    ∧ (targetRechargeVolumeM3 harvestVolumeM3 dwellers ≤ 2 →
        recommendStructure harvestVolumeM3 openSpaceM2 depthToGroundwaterM dwellers = []) := by
  refine ⟨rfl, fun h => ?_⟩
  unfold recommendStructure
  by_cases hsp : openSpaceM2 < 2
  · rw [if_pos hsp]
  · rw [if_neg hsp, if_pos h]

theorem c4_negligible_target_empty_witness :
    targetRechargeVolumeM3 2 2 ≤ 2 ∧ recommendStructure 2 50 (some 30) 2 = [] :=
  ⟨by norm_num [targetRechargeVolumeM3, targetRechargeFactor],
   (c4_negligible_target_empty 2 50 (some 30) 2).2
     (by norm_num [targetRechargeVolumeM3, targetRechargeFactor])⟩

/-- C5 (counterexample): at annual harvest 0.07 m³ the analyzer's annual
savings are `Math.round(1.4) = 1`, not the claim's exact `harvest × 20 = 1.4`. -/
theorem c5_claim_counterexample :
    ((calculateCostBenefit 100 (7/100)).annualSavingsInr : ℚ) ≠ (7/100) * 20 := by
  have hs : (calculateCostBenefit 100 (7/100)).annualSavingsInr = 1 := by
    show jsRound ((7:ℚ)/100 * 20) = 1
    exact jsRound_eq (by norm_num) (by norm_num)
  rw [hs]
  norm_num

/-- C5 (amended): annual savings equal the harvest × 20 *rounded to the nearest
integer* (`Math.round`), and the payback period is `null` exactly when the
rounded savings are not positive; when they are positive it equals
cost ÷ savings rounded to one decimal. -/
theorem c5_savings_rounded_payback (cost annualHarvestM3 : ℚ) :
    (calculateCostBenefit cost annualHarvestM3).annualSavingsInr = jsRound (annualHarvestM3 * 20)
    ∧ (calculateCostBenefit cost annualHarvestM3).paybackPeriodYears =
        (if 0 < jsRound (annualHarvestM3 * 20) then
          some (jsToFixed1 (cost / (jsRound (annualHarvestM3 * 20) : ℚ))) else none)
    ∧ ((calculateCostBenefit cost annualHarvestM3).paybackPeriodYears = none ↔
        (calculateCostBenefit cost annualHarvestM3).annualSavingsInr ≤ 0) := by
  refine ⟨rfl, rfl, ?_⟩
  show (if 0 < jsRound (annualHarvestM3 * 20) then
      some (jsToFixed1 (cost / (jsRound (annualHarvestM3 * 20) : ℚ))) else none) = none ↔
    jsRound (annualHarvestM3 * 20) ≤ 0
  split_ifs with h
  · simp only [reduceCtorEq, false_iff]
    omega
  · simp only [true_iff]
    omega

/-! ### C1: validation behaviour of `postAssess` -/

/-- A concrete malformed input for C1: zero roof area, everything else valid. -/
def c1input : AssessmentInput :=
  { lat := 20, lon := 77, roofAreaM2 := 0, roofType := .rcc, openSpaceM2 := 50
  , dwellers := 4, consentToStore := false }

lemma annualRain_lat20_half : annualRainMmOf 20 (1/2) = 46100/29 := by
  norm_num [annualRainMmOf, baseRain, normalizedLat, min_def, max_def]

/-- C1 (counterexample): on a zero-roof-area input `postAssess` does not reject;
it resolves with a populated result whose harvest is 0 and whose feasibility
tier is even Green. -/
theorem c1_claim_counterexample :
    postAssess c1input (1/2) 0 = Except.ok (assessResult c1input (1/2) 0)
    ∧ (assessResult c1input (1/2) 0).annualHarvestM3 = 0
    ∧ (assessResult c1input (1/2) 0).feasibility = Feasibility.Green := by
  refine ⟨rfl, ?_, ?_⟩
  · show jsToFixed1 (annualHarvestOf c1input (1/2)) = 0
    have h : annualHarvestOf c1input (1/2) = 0 := by
      unfold annualHarvestOf calculateHarvestableVolume
      show _ * (0:ℚ) * _ * _ = 0
      ring
    rw [h, jsToFixed1_zero]
  · show classifyFeasibility
      (feasibilityScore c1input.roofAreaM2 (annualRainMmOf c1input.lat (1/2))
        c1input.openSpaceM2) = Feasibility.Green
    have h : feasibilityScore c1input.roofAreaM2 (annualRainMmOf c1input.lat (1/2))
        c1input.openSpaceM2 = 4625/58 := by
      show feasibilityScore 0 (annualRainMmOf 20 (1/2)) 50 = 4625/58
      rw [annualRain_lat20_half]
      norm_num [feasibilityScore]
    rw [h]
    unfold classifyFeasibility
    rw [if_pos (by norm_num)]

/-- C1 (amended): the engine performs no input validation at all — `postAssess`
always resolves with a populated `AssessmentResult`; in particular a zero roof
area yields zero harvest volumes together with a normally computed feasibility
tier instead of a rejection. -/
theorem c1_no_validation (input : AssessmentInput) (rainRand depthRand : ℚ)
    (h : input.roofAreaM2 = 0) :
    postAssess input rainRand depthRand = Except.ok (assessResult input rainRand depthRand)
    ∧ (assessResult input rainRand depthRand).annualHarvestM3 = 0
    ∧ (assessResult input rainRand depthRand).monsoonHarvestM3 = 0 := by
  refine ⟨rfl, ?_, ?_⟩
  · show jsToFixed1 (annualHarvestOf input rainRand) = 0
    have h0 : annualHarvestOf input rainRand = 0 := by
      unfold annualHarvestOf calculateHarvestableVolume
      rw [h]; ring
    rw [h0, jsToFixed1_zero]
  · show jsToFixed1 (monsoonHarvestOf input rainRand) = 0
    have h0 : monsoonHarvestOf input rainRand = 0 := by
      unfold monsoonHarvestOf calculateHarvestableVolume
      rw [h]; ring
    rw [h0, jsToFixed1_zero]

theorem c1_no_validation_witness :
    c1input.roofAreaM2 = 0
    ∧ (postAssess c1input (1/3) (1/4) = Except.ok (assessResult c1input (1/3) (1/4))
       ∧ (assessResult c1input (1/3) (1/4)).annualHarvestM3 = 0
       ∧ (assessResult c1input (1/3) (1/4)).monsoonHarvestM3 = 0) :=
  ⟨rfl, c1_no_validation c1input (1/3) (1/4) rfl⟩

/-! ### C6: feasibility tier formula and monotonicity -/

/-- Rank of a feasibility tier: Red < Yellow < Green. -/
def tierVal : Feasibility → ℕ
  | .Red => 0
  | .Yellow => 1
  | .Green => 2

/-- C6: the tier is classified from the weighted score with the fixed 75/40
thresholds, and is monotone — componentwise larger inputs never lower the tier. -/
theorem c6_feasibility_formula_monotone (input : AssessmentInput) (j1 j2 : ℚ)
    (a1 a2 r1 r2 s1 s2 : ℚ) (ha : a1 ≤ a2) (hr : r1 ≤ r2) (hs : s1 ≤ s2) :
    (assessResult input j1 j2).feasibility =
      classifyFeasibility (feasibilityScore input.roofAreaM2 (annualRainMmOf input.lat j1)
        input.openSpaceM2)
    ∧ feasibilityScore a1 r1 s1 = (a1/200) * 30 + (r1/1200) * 30 + 25 + (s1/50) * 15
    ∧ classifyFeasibility (feasibilityScore a1 r1 s1) =
        (if 75 ≤ feasibilityScore a1 r1 s1 then .Green
         else if 40 ≤ feasibilityScore a1 r1 s1 then .Yellow else .Red)
    ∧ tierVal (classifyFeasibility (feasibilityScore a1 r1 s1)) ≤
        tierVal (classifyFeasibility (feasibilityScore a2 r2 s2)) := by
  refine ⟨rfl, rfl, rfl, ?_⟩
  have hsc : feasibilityScore a1 r1 s1 ≤ feasibilityScore a2 r2 s2 := by
    unfold feasibilityScore; linarith
  unfold classifyFeasibility
  split_ifs <;> simp [tierVal] <;> linarith

theorem c6_feasibility_formula_monotone_witness :
    (100 : ℚ) ≤ 200 ∧ (1000 : ℚ) ≤ 1100 ∧ (10 : ℚ) ≤ 10
    ∧ ((assessResult c1input (1/2) 0).feasibility =
        classifyFeasibility (feasibilityScore c1input.roofAreaM2
          (annualRainMmOf c1input.lat (1/2)) c1input.openSpaceM2)
       ∧ feasibilityScore 100 1000 10 =
          ((100:ℚ)/200) * 30 + ((1000:ℚ)/1200) * 30 + 25 + ((10:ℚ)/50) * 15
       ∧ classifyFeasibility (feasibilityScore 100 1000 10) =
          (if 75 ≤ feasibilityScore 100 1000 10 then .Green
           else if 40 ≤ feasibilityScore 100 1000 10 then .Yellow else .Red)
       ∧ tierVal (classifyFeasibility (feasibilityScore 100 1000 10)) ≤
          tierVal (classifyFeasibility (feasibilityScore 200 1100 10))) :=
  ⟨by norm_num, by norm_num, le_rfl,
   c6_feasibility_formula_monotone c1input (1/2) 0 100 200 1000 1100 10 10
     (by norm_num) (by norm_num) le_rfl⟩

/-! ### C7: harvest-volume ordering -/

/-- C7: for a valid input (positive roof area, a known material) and any rain
jitter in `[0,1)`, the result's harvest volumes satisfy
`annualHarvest ≥ monsoonHarvest ≥ 0`; the monsoon rainfall is 0.8 × the annual
rainfall, and both harvests are computed by the same
`calculateHarvestableVolume` with the same runoff coefficient, roof area and
efficiency factor. -/
theorem c7_harvest_order (input : AssessmentInput) (rainRand depthRand : ℚ)
    (harea : 0 < input.roofAreaM2) (h0 : 0 ≤ rainRand) (_h1 : rainRand < 1) :
    monsoonRainMmOf input.lat rainRand = (8/10) * annualRainMmOf input.lat rainRand
    ∧ (assessResult input rainRand depthRand).annualHarvestM3 =
        jsToFixed1 (calculateHarvestableVolume (annualRainMmOf input.lat rainRand)
          input.roofAreaM2 (ROOF_COEFFICIENTS input.roofType))
    ∧ (assessResult input rainRand depthRand).monsoonHarvestM3 =
        jsToFixed1 (calculateHarvestableVolume (monsoonRainMmOf input.lat rainRand)
          input.roofAreaM2 (ROOF_COEFFICIENTS input.roofType))
    ∧ 0 ≤ (assessResult input rainRand depthRand).monsoonHarvestM3
    ∧ (assessResult input rainRand depthRand).monsoonHarvestM3 ≤
        (assessResult input rainRand depthRand).annualHarvestM3 := by
  have hann : 0 ≤ annualHarvestOf input rainRand := annualHarvestOf_nonneg h0 harea.le
  have hmon : monsoonHarvestOf input rainRand = (8/10) * annualHarvestOf input rainRand :=
    monsoonHarvest_eq input rainRand
  have hmon0 : 0 ≤ monsoonHarvestOf input rainRand := by rw [hmon]; linarith
  have hle : monsoonHarvestOf input rainRand ≤ annualHarvestOf input rainRand := by
    rw [hmon]; linarith
  refine ⟨?_, rfl, rfl, ?_, ?_⟩
  · unfold monsoonRainMmOf; ring
  · exact jsToFixed1_nonneg hmon0
  · exact jsToFixed1_mono_of_nonneg hmon0 hle

/-- A concrete fully valid input used to witness C7. -/
def c7input : AssessmentInput :=
  { lat := 20, lon := 77, roofAreaM2 := 100, roofType := .rcc, openSpaceM2 := 50
  , dwellers := 4, consentToStore := false }

theorem c7_harvest_order_witness :
    0 < c7input.roofAreaM2 ∧ (0:ℚ) ≤ 1/2 ∧ (1/2:ℚ) < 1
    ∧ (monsoonRainMmOf c7input.lat (1/2) = (8/10) * annualRainMmOf c7input.lat (1/2)
       ∧ (assessResult c7input (1/2) 0).annualHarvestM3 =
          jsToFixed1 (calculateHarvestableVolume (annualRainMmOf c7input.lat (1/2))
            c7input.roofAreaM2 (ROOF_COEFFICIENTS c7input.roofType))
       ∧ (assessResult c7input (1/2) 0).monsoonHarvestM3 =
          jsToFixed1 (calculateHarvestableVolume (monsoonRainMmOf c7input.lat (1/2))
            c7input.roofAreaM2 (ROOF_COEFFICIENTS c7input.roofType))
       ∧ 0 ≤ (assessResult c7input (1/2) 0).monsoonHarvestM3
       ∧ (assessResult c7input (1/2) 0).monsoonHarvestM3 ≤
          (assessResult c7input (1/2) 0).annualHarvestM3) :=
  ⟨by norm_num [c7input], by norm_num, by norm_num,
   c7_harvest_order c7input (1/2) 0 (by norm_num [c7input]) (by norm_num) (by norm_num)⟩

/-! ### C10: groundwater depth is always populated and in the zone range -/

lemma zone_cases (lat : ℚ) :
    getHydrogeologicalZone lat = zoneNorthernAlluvial ∨
    getHydrogeologicalZone lat = zoneCentralHighlands ∨
    getHydrogeologicalZone lat = zonePeninsularHardRock ∨
    getHydrogeologicalZone lat = zoneCoastalSedimentary ∨
    getHydrogeologicalZone lat = zoneWesternArid ∨
    getHydrogeologicalZone lat = FALLBACK_ZONE := by
  unfold getHydrogeologicalZone
  cases hf : ZONES.find?
      (fun z => decide (z.latRange.1 ≤ lat) && decide (lat < z.latRange.2)) with
  | none => right; right; right; right; right; rfl
  | some z =>
    have hz := List.mem_of_find?_eq_some hf
    simp only [ZONES, List.mem_cons, List.not_mem_nil, or_false] at hz
    simp only [Option.getD_some]
    tauto

lemma zone_depth_range_int (lat : ℚ) :
    ∃ m M : ℤ, (getHydrogeologicalZone lat).depthToGroundwaterRangeM.1 = (m : ℚ)
      ∧ (getHydrogeologicalZone lat).depthToGroundwaterRangeM.2 = (M : ℚ)
      ∧ 0 < (m : ℚ) ∧ (m : ℚ) ≤ (M : ℚ) := by
  rcases zone_cases lat with h | h | h | h | h | h <;> rw [h]
  · exact ⟨8, 25, by norm_num [zoneNorthernAlluvial]⟩
  · exact ⟨10, 35, by norm_num [zoneCentralHighlands]⟩
  · exact ⟨5, 45, by norm_num [zonePeninsularHardRock]⟩
  · exact ⟨2, 10, by norm_num [zoneCoastalSedimentary]⟩
  · exact ⟨20, 100, by norm_num [zoneWesternArid]⟩
  · exact ⟨5, 20, by norm_num [FALLBACK_ZONE]⟩

/-- C10: `assess` always fills the nullable `depthToGroundwaterM` with an
actual value; a zone is resolved for every latitude (the fallback zone when no
table range matches), and for every random draw in `[0,1)` the sampled depth —
also after rounding to one decimal — lies within the zone's depth range. -/
theorem c10_depth_populated_in_range (input : AssessmentInput) (rainRand depthRand : ℚ)
    (h0 : 0 ≤ depthRand) (h1 : depthRand < 1) :
    (assessResult input rainRand depthRand).depthToGroundwaterM =
      some (jsToFixed1 (depthToGroundwaterOf input.lat depthRand))
    ∧ (getHydrogeologicalZone input.lat).depthToGroundwaterRangeM.1 ≤
        jsToFixed1 (depthToGroundwaterOf input.lat depthRand)
    ∧ jsToFixed1 (depthToGroundwaterOf input.lat depthRand) ≤
        (getHydrogeologicalZone input.lat).depthToGroundwaterRangeM.2
    ∧ (ZONES.find? (fun z => decide (z.latRange.1 ≤ input.lat) &&
          decide (input.lat < z.latRange.2)) = none →
        getHydrogeologicalZone input.lat = FALLBACK_ZONE) := by
  obtain ⟨m, M, hm, hM, hmpos, hmM⟩ := zone_depth_range_int input.lat
  have hraw : depthToGroundwaterOf input.lat depthRand =
      (m : ℚ) + depthRand * ((M : ℚ) - (m : ℚ)) := by
    unfold depthToGroundwaterOf; rw [hm, hM]
  have hlow : (m : ℚ) ≤ depthToGroundwaterOf input.lat depthRand := by
    rw [hraw]; nlinarith
  have hhigh : depthToGroundwaterOf input.lat depthRand ≤ (M : ℚ) := by
    rw [hraw]; nlinarith
  have hrawpos : 0 ≤ depthToGroundwaterOf input.lat depthRand := le_trans hmpos.le hlow
  refine ⟨rfl, ?_, ?_, ?_⟩
  · rw [hm]; exact int_le_jsToFixed1 hrawpos hlow
  · rw [hM]; exact jsToFixed1_le_int hrawpos hhigh
  · intro hnone
    unfold getHydrogeologicalZone
    rw [hnone]
    rfl

theorem c10_depth_populated_in_range_witness :
    (0:ℚ) ≤ 1/2 ∧ (1/2:ℚ) < 1
    ∧ ((assessResult c7input (1/2) (1/2)).depthToGroundwaterM =
        some (jsToFixed1 (depthToGroundwaterOf c7input.lat (1/2)))
       ∧ (getHydrogeologicalZone c7input.lat).depthToGroundwaterRangeM.1 ≤
          jsToFixed1 (depthToGroundwaterOf c7input.lat (1/2))
       ∧ jsToFixed1 (depthToGroundwaterOf c7input.lat (1/2)) ≤
          (getHydrogeologicalZone c7input.lat).depthToGroundwaterRangeM.2
       ∧ (ZONES.find? (fun z => decide (z.latRange.1 ≤ c7input.lat) &&
            decide (c7input.lat < z.latRange.2)) = none →
          getHydrogeologicalZone c7input.lat = FALLBACK_ZONE)) :=
  ⟨by norm_num, by norm_num,
   c10_depth_populated_in_range c7input (1/2) (1/2) (by norm_num) (by norm_num)⟩

/-! ### C8: invariants of every returned structure -/

lemma shaftDepth_ge (d : Option ℚ) : 8 ≤ shaftDepthOf d := le_max_left 8 _

lemma shaftCrossSectionArea_nonneg : 0 ≤ shaftCrossSectionArea := by
  norm_num [shaftCrossSectionArea, MathPI]

lemma shaftRechargeCapacity_nonneg (d : Option ℚ) : 0 ≤ shaftRechargeCapacity d := by
  have h1 := shaftCrossSectionArea_nonneg
  have h2 := shaftDepth_ge d
  unfold shaftRechargeCapacity filterMediaPorosity percolationFactor
  nlinarith

lemma pitArea_ge (sp : ℚ) : 9/4 ≤ pitArea sp := by
  have := le_max_left ((3/2 : ℚ)^2) (min (4^2) (sp * (6/10)))
  unfold pitArea
  nlinarith

lemma pitCap_pos (sp : ℚ) : 0 < pitRechargeCapacityPerPit sp := by
  have := pitArea_ge sp
  unfold pitRechargeCapacityPerPit pitPhysicalVolume filterMediaPorosity percolationFactor
  nlinarith

lemma shaftEntry_invariants (d : Option ℚ) :
    0 ≤ (shaftEntry d).costInr ∧ 0 ≤ (shaftEntry d).volumeM3 ∧
      ∃ n : ℤ, (shaftEntry d).count = some n ∧ 1 ≤ n ∧ ((shaftEntry d).type = .pit → n ≤ 3) := by
  refine ⟨?_, ?_, 1, rfl, le_rfl, ?_⟩
  · have := shaftDepth_ge d
    exact jsRound_nonneg (by linarith)
  · exact jsToFixed1_nonneg (shaftRechargeCapacity_nonneg d)
  · intro h
    simp [shaftEntry] at h

lemma trenchEntry_invariants (rem sp : ℚ) (hlen : 2 < trenchFinalLength rem sp) :
    0 ≤ (trenchEntry rem sp).costInr ∧ 0 ≤ (trenchEntry rem sp).volumeM3 ∧
      ∃ n : ℤ, (trenchEntry rem sp).count = some n ∧ 1 ≤ n ∧
        ((trenchEntry rem sp).type = .pit → n ≤ 3) := by
  refine ⟨?_, ?_, 1, rfl, le_rfl, ?_⟩
  · exact jsRound_nonneg (by linarith)
  · refine jsToFixed1_nonneg ?_
    unfold trenchRechargeCapacityPerMeter filterMediaPorosity percolationFactor
    nlinarith
  · intro h
    simp [trenchEntry] at h

lemma pitEntry_invariants (rem sp : ℚ) (hrem : 5 < rem) :
    0 ≤ (pitEntry rem sp).costInr ∧ 0 ≤ (pitEntry rem sp).volumeM3 ∧
      ∃ n : ℤ, (pitEntry rem sp).count = some n ∧ 1 ≤ n ∧
        ((pitEntry rem sp).type = .pit → n ≤ 3) := by
  have hcap := pitCap_pos sp
  have hceil : 1 ≤ jsCeil (rem / pitRechargeCapacityPerPit sp) := by
    have hq : (0 : ℚ) < rem / pitRechargeCapacityPerPit sp := by positivity
    exact Int.ceil_pos.mpr hq
  have hcount1 : 1 ≤ pitCount rem sp := le_min hceil (by norm_num)
  have hcount3 : pitCount rem sp ≤ 3 := min_le_right _ 3
  have hcountq : (0 : ℚ) ≤ (pitCount rem sp : ℚ) := by
    have : (0 : ℤ) ≤ pitCount rem sp := by linarith
    exact_mod_cast this
  have harea := pitArea_ge sp
  refine ⟨?_, ?_, pitCount rem sp, rfl, hcount1, fun _ => hcount3⟩
  · refine jsRound_nonneg ?_
    have hphys : 0 ≤ pitPhysicalVolume sp := by unfold pitPhysicalVolume; nlinarith
    have hbase : (0:ℚ) ≤ 2500 + 250 * pitPhysicalVolume sp := by nlinarith
    exact mul_nonneg hbase hcountq
  · exact jsToFixed1_nonneg (mul_nonneg hcap.le hcountq)

set_option maxHeartbeats 1000000 in
/-- C8: every structure returned by the recommender has non-negative cost and
volume and a unit count of at least 1, the pit count being additionally capped
at 3. -/
theorem c8_structure_invariants (harvestVolumeM3 openSpaceM2 : ℚ)
    (depthToGroundwaterM : Option ℚ) (dwellers : ℚ) (x : RecommendedStructure)
    (hx : x ∈ recommendStructure harvestVolumeM3 openSpaceM2 depthToGroundwaterM dwellers) :
    0 ≤ x.costInr ∧ 0 ≤ x.volumeM3 ∧
      ∃ n : ℤ, x.count = some n ∧ 1 ≤ n ∧ (x.type = .pit → n ≤ 3) := by
  simp only [recommendStructure] at hx
  split_ifs at hx <;>
    simp only [List.mem_append, List.mem_singleton, List.not_mem_nil, or_false,
      false_or] at hx
  · rcases hx with (hx | hx) | hx
    · subst hx; exact shaftEntry_invariants _
    · subst hx
      exact trenchEntry_invariants _ _ (And.right (And.right (And.right (by assumption))))
    · subst hx
      exact pitEntry_invariants _ _ (And.left (by assumption))
  · rcases hx with hx | hx
    · subst hx; exact shaftEntry_invariants _
    · subst hx
      exact trenchEntry_invariants _ _ (And.right (And.right (And.right (by assumption))))
  · rcases hx with hx | hx
    · subst hx; exact shaftEntry_invariants _
    · subst hx
      exact pitEntry_invariants _ _ (And.left (by assumption))
  · subst hx; exact shaftEntry_invariants _
  · rcases hx with hx | hx
    · subst hx
      exact trenchEntry_invariants _ _ (And.right (And.right (And.right (by assumption))))
    · subst hx
      exact pitEntry_invariants _ _ (And.left (by assumption))
  · subst hx
    exact trenchEntry_invariants _ _ (And.right (And.right (And.right (by assumption))))
  · subst hx
    exact pitEntry_invariants _ _ (And.left (by assumption))

lemma c8_witness_mem : pitEntry 14 20 ∈ recommendStructure 20 20 (some 5) 2 := by
  have htv : targetRechargeVolumeM3 20 2 = 14 := by
    norm_num [targetRechargeVolumeM3, targetRechargeFactor]
  have hcap : 0 < pitRechargeCapacityPerPit 20 := pitCap_pos 20
  simp only [recommendStructure, htv]
  norm_num [isDeepWaterTable, decide_eq_true_eq, hcap]

theorem c8_structure_invariants_witness :
    pitEntry 14 20 ∈ recommendStructure 20 20 (some 5) 2
    ∧ (0 ≤ (pitEntry 14 20).costInr ∧ 0 ≤ (pitEntry 14 20).volumeM3 ∧
        ∃ n : ℤ, (pitEntry 14 20).count = some n ∧ 1 ≤ n ∧
          ((pitEntry 14 20).type = .pit → n ≤ 3)) :=
  ⟨c8_witness_mem,
   c8_structure_invariants 20 20 (some 5) 2 (pitEntry 14 20) c8_witness_mem⟩

/-! ### C2: the greedy three-rule cascade, stated from the claim's wording -/

/-- Claim-side predicate: the shaft rule's depth condition, "groundwater depth
> 12 m" (absent depth fails it). -/
def specDeepWaterTable (depthToGroundwaterM : Option ℚ) : Prop :=
  match depthToGroundwaterM with
  | some dd => 12 < dd
  | none => False

instance (d : Option ℚ) : Decidable (specDeepWaterTable d) :=
  match d with
  | some dd => inferInstanceAs (Decidable (12 < dd))
  | none => inferInstanceAs (Decidable False)

/-- Claim-side: the volume remaining after the shaft rule (the shaft's
recharge capacity subtracted when its guard held). -/
def specRemAfterShaft (harvestVolumeM3 openSpaceM2 : ℚ) (depthToGroundwaterM : Option ℚ)
    (dwellers : ℚ) : ℚ :=
  if specDeepWaterTable depthToGroundwaterM ∧ 2 ≤ openSpaceM2 ∧
      20 < harvestVolumeM3 * min (9/10) (7/10 + max 0 (dwellers - 2) * (5/100)) then
    harvestVolumeM3 * min (9/10) (7/10 + max 0 (dwellers - 2) * (5/100)) -
      shaftRechargeCapacity depthToGroundwaterM
  else harvestVolumeM3 * min (9/10) (7/10 + max 0 (dwellers - 2) * (5/100))

/-- Claim-side: the volume remaining after the trench rule. -/
def specRemAfterTrench (harvestVolumeM3 openSpaceM2 : ℚ) (depthToGroundwaterM : Option ℚ)
    (dwellers : ℚ) : ℚ :=
  if 40 < specRemAfterShaft harvestVolumeM3 openSpaceM2 depthToGroundwaterM dwellers ∧
      10 ≤ openSpaceM2 then
    specRemAfterShaft harvestVolumeM3 openSpaceM2 depthToGroundwaterM dwellers -
      trenchFinalLength
        (specRemAfterShaft harvestVolumeM3 openSpaceM2 depthToGroundwaterM dwellers)
        openSpaceM2 * trenchRechargeCapacityPerMeter
  else specRemAfterShaft harvestVolumeM3 openSpaceM2 depthToGroundwaterM dwellers

/-- Claim-side reading of the recommender's output kinds: at most one structure
of each kind, in the order shaft, trench, pit, each present exactly when its
guard holds of the remaining unsatisfied volume. -/
def specRecommendedKinds (harvestVolumeM3 openSpaceM2 : ℚ) (depthToGroundwaterM : Option ℚ)
    (dwellers : ℚ) : List StructureType :=
  (if specDeepWaterTable depthToGroundwaterM ∧ 2 ≤ openSpaceM2 ∧
      20 < harvestVolumeM3 * min (9/10) (7/10 + max 0 (dwellers - 2) * (5/100)) then
    [StructureType.shaft] else []) ++
  (if 40 < specRemAfterShaft harvestVolumeM3 openSpaceM2 depthToGroundwaterM dwellers ∧
      10 ≤ openSpaceM2 then [StructureType.trench] else []) ++
  (if 5 < specRemAfterTrench harvestVolumeM3 openSpaceM2 depthToGroundwaterM dwellers ∧
      4 ≤ openSpaceM2 then [StructureType.pit] else [])

lemma shaftEntry_type (d : Option ℚ) : (shaftEntry d).type = .shaft := rfl

lemma trenchEntry_type (rem sp : ℚ) : (trenchEntry rem sp).type = .trench := rfl

lemma pitEntry_type (rem sp : ℚ) : (pitEntry rem sp).type = .pit := rfl

lemma trench_guard_iff (rem sp : ℚ) :
    (40 < rem ∧ 10 ≤ sp ∧ 0 < trenchRechargeCapacityPerMeter ∧
      2 < trenchFinalLength rem sp) ↔ (40 < rem ∧ 10 ≤ sp) := by
  constructor
  · rintro ⟨h40, h10, -, -⟩
    exact ⟨h40, h10⟩
  · rintro ⟨h40, h10⟩
    have hcapM : trenchRechargeCapacityPerMeter = 3 := by
      norm_num [trenchRechargeCapacityPerMeter, filterMediaPorosity, percolationFactor]
    refine ⟨h40, h10, by rw [hcapM]; norm_num, ?_⟩
    unfold trenchFinalLength
    rw [hcapM]
    refine lt_min (by linarith) (lt_min (by rw [div_one]; linarith) (by norm_num))

lemma pit_guard_iff (rem sp : ℚ) :
    (5 < rem ∧ 4 ≤ sp ∧ 0 < pitRechargeCapacityPerPit sp) ↔ (5 < rem ∧ 4 ≤ sp) := by
  constructor
  · rintro ⟨h5, h4, -⟩
    exact ⟨h5, h4⟩
  · rintro ⟨h5, h4⟩
    exact ⟨h5, h4, pitCap_pos sp⟩

/-- C2: the recommender's output, viewed as the list of structure kinds, is
exactly the claim's greedy cascade — at most one of each kind, in shaft,
trench, pit order, each present exactly when its guard holds of the remaining
volume left by the previous rules' recharge capacities. -/
theorem c2_recommend_cascade (harvestVolumeM3 openSpaceM2 : ℚ)
    (depthToGroundwaterM : Option ℚ) (dwellers : ℚ) :
    (recommendStructure harvestVolumeM3 openSpaceM2 depthToGroundwaterM dwellers).map
        (fun s => s.type) =
      specRecommendedKinds harvestVolumeM3 openSpaceM2 depthToGroundwaterM dwellers := by
  have hd : (isDeepWaterTable depthToGroundwaterM = true) ↔
      specDeepWaterTable depthToGroundwaterM := by
    cases depthToGroundwaterM <;> simp [isDeepWaterTable, specDeepWaterTable]
  have hfor : harvestVolumeM3 * min ((9:ℚ)/10) (7/10 + max 0 (dwellers - 2) * (5/100)) =
      targetRechargeVolumeM3 harvestVolumeM3 dwellers := rfl
  simp only [recommendStructure, specRecommendedKinds, specRemAfterTrench, specRemAfterShaft]
  simp only [hfor]
  simp only [hd, trench_guard_iff, pit_guard_iff]
  by_cases h1 : openSpaceM2 < 2
  · have hn2 : ¬(2 ≤ openSpaceM2) := by linarith
    have hn10 : ¬(10 ≤ openSpaceM2) := by linarith
    have hn4 : ¬(4 ≤ openSpaceM2) := by linarith
    simp [h1, hn2, hn10, hn4]
  · by_cases h2 : targetRechargeVolumeM3 harvestVolumeM3 dwellers ≤ 2
    · have hn20 : ¬(20 < targetRechargeVolumeM3 harvestVolumeM3 dwellers) := by linarith
      have hn40 : ¬(40 < targetRechargeVolumeM3 harvestVolumeM3 dwellers) := by linarith
      have hn5 : ¬(5 < targetRechargeVolumeM3 harvestVolumeM3 dwellers) := by linarith
      simp [h1, h2, hn20, hn40, hn5]
    · by_cases g1 : specDeepWaterTable depthToGroundwaterM ∧ 2 ≤ openSpaceM2 ∧
          20 < targetRechargeVolumeM3 harvestVolumeM3 dwellers
      · by_cases g2 : 40 < targetRechargeVolumeM3 harvestVolumeM3 dwellers -
            shaftRechargeCapacity depthToGroundwaterM ∧ 10 ≤ openSpaceM2
        · by_cases g3 : 5 < targetRechargeVolumeM3 harvestVolumeM3 dwellers -
              shaftRechargeCapacity depthToGroundwaterM -
              trenchFinalLength (targetRechargeVolumeM3 harvestVolumeM3 dwellers -
                shaftRechargeCapacity depthToGroundwaterM) openSpaceM2 *
                trenchRechargeCapacityPerMeter ∧ 4 ≤ openSpaceM2
          · simp [h1, h2, g1, g2, g3, shaftEntry_type, trenchEntry_type, pitEntry_type]
          · simp [h1, h2, g1, g2, g3, shaftEntry_type, trenchEntry_type]
        · by_cases g3 : 5 < targetRechargeVolumeM3 harvestVolumeM3 dwellers -
              shaftRechargeCapacity depthToGroundwaterM ∧ 4 ≤ openSpaceM2
          · simp [h1, h2, g1, g2, g3, shaftEntry_type, pitEntry_type]
          · simp [h1, h2, g1, g2, g3, shaftEntry_type]
      · by_cases g2 : 40 < targetRechargeVolumeM3 harvestVolumeM3 dwellers ∧
            10 ≤ openSpaceM2
        · by_cases g3 : 5 < targetRechargeVolumeM3 harvestVolumeM3 dwellers -
              trenchFinalLength (targetRechargeVolumeM3 harvestVolumeM3 dwellers) openSpaceM2 *
                trenchRechargeCapacityPerMeter ∧ 4 ≤ openSpaceM2
          · simp [h1, h2, g1, g2, g3, trenchEntry_type, pitEntry_type]
          · simp [h1, h2, g1, g2, g3, trenchEntry_type]
        · by_cases g3 : 5 < targetRechargeVolumeM3 harvestVolumeM3 dwellers ∧
              4 ≤ openSpaceM2
          · simp [h1, h2, g1, g2, g3, pitEntry_type]
          · simp [h1, h2, g1, g2, g3]

/-! ### C9: which aquifer note accompanies an empty structure list -/

lemma zoneNote_ne_spaceLimitedNote (z : HydrogeologicalZone) (q : ℚ) :
    zoneNote z ≠ spaceLimitedNote q := by
  intro h
  have hd : (zoneNote z).data = (spaceLimitedNote q).data := by rw [h]
  simp only [zoneNote, spaceLimitedNote, String.data_append] at hd
  simp at hd

/-- C9 (amended): whenever the structure list is empty, the aquifer note is the
space-constraint note exactly when the (unrounded) monsoon harvest exceeds
2 m³ — the note's trigger is the harvest volume, not the demand-scaled target
volume. -/
theorem c9_note_iff_harvest (input : AssessmentInput) (rainRand depthRand : ℚ)
    (hempty : (assessResult input rainRand depthRand).recommendedStructures = []) :
    ((assessResult input rainRand depthRand).aquiferNote =
        spaceLimitedNote input.openSpaceM2 ↔ 2 < monsoonHarvestOf input rainRand) := by
  have hrec : recommendedOf input rainRand depthRand = [] := hempty
  show aquiferNoteOf input rainRand depthRand = spaceLimitedNote input.openSpaceM2 ↔
    2 < monsoonHarvestOf input rainRand
  unfold aquiferNoteOf
  rw [hrec]
  by_cases hm : 2 < monsoonHarvestOf input rainRand
  · rw [if_pos ⟨rfl, hm⟩]
    simp [hm]
  · rw [if_neg (by simp [hm])]
    simp [hm, zoneNote_ne_spaceLimitedNote]

/-- Concrete input witnessing C9's amended theorem: open space 1 m², large roof. -/
def c9winput : AssessmentInput :=
  { lat := 20, lon := 77, roofAreaM2 := 100, roofType := .rcc, openSpaceM2 := 1
  , dwellers := 4, consentToStore := false }

lemma c9w_empty : (assessResult c9winput (1/2) 0).recommendedStructures = [] := by
  show recommendStructure (monsoonHarvestOf c9winput (1/2)) 1
    (some (depthToGroundwaterOf c9winput.lat 0)) 4 = []
  unfold recommendStructure
  rw [if_pos (by norm_num)]

theorem c9_note_iff_harvest_witness :
    (assessResult c9winput (1/2) 0).recommendedStructures = []
    ∧ ((assessResult c9winput (1/2) 0).aquiferNote = spaceLimitedNote c9winput.openSpaceM2 ↔
        2 < monsoonHarvestOf c9winput (1/2)) :=
  ⟨c9w_empty, c9_note_iff_harvest c9winput (1/2) 0 c9w_empty⟩

/-- Concrete input refuting C9 as stated: ample open space (100 m²), tiny roof,
so the harvest exceeds 2 m³ but the demand-scaled target is below the 2 m³
negligible-volume threshold. -/
def c9input : AssessmentInput :=
  { lat := 20, lon := 77, roofAreaM2 := 11/5, roofType := .rcc, openSpaceM2 := 100
  , dwellers := 2, consentToStore := false }

lemma c9_monsoonHarvest_eval : monsoonHarvestOf c9input (1/2) = 410751/181250 := by
  norm_num [monsoonHarvestOf, calculateHarvestableVolume, monsoonRainMmOf, annualRainMmOf,
    baseRain, normalizedLat, SYSTEM_EFFICIENCY, ROOF_COEFFICIENTS, c9input, min_def, max_def]

lemma c9_target_le : targetRechargeVolumeM3 (monsoonHarvestOf c9input (1/2)) 2 ≤ 2 := by
  rw [c9_monsoonHarvest_eval]
  norm_num [targetRechargeVolumeM3, targetRechargeFactor, min_def, max_def]

lemma c9_empty : (assessResult c9input (1/2) 0).recommendedStructures = [] := by
  show recommendStructure (monsoonHarvestOf c9input (1/2)) 100
    (some (depthToGroundwaterOf c9input.lat 0)) 2 = []
  unfold recommendStructure
  rw [if_neg (by norm_num), if_pos c9_target_le]

/-- C9 (counterexample): at this input the structure list is empty and the
demand-scaled target volume is below the 2 m³ threshold (so space is *not* the
binding constraint — open space is 100 m²), yet the engine's aquifer note is
the space-constraint note. -/
theorem c9_claim_counterexample :
    (assessResult c9input (1/2) 0).recommendedStructures = []
    ∧ targetRechargeVolumeM3 (monsoonHarvestOf c9input (1/2)) c9input.dwellers ≤ 2
    ∧ c9input.openSpaceM2 = 100
    ∧ (assessResult c9input (1/2) 0).aquiferNote = spaceLimitedNote 100 := by
  refine ⟨c9_empty, c9_target_le, rfl, ?_⟩
  show aquiferNoteOf c9input (1/2) 0 = spaceLimitedNote 100
  unfold aquiferNoteOf
  have hrec : recommendedOf c9input (1/2) 0 = [] := c9_empty
  rw [hrec]
  rw [if_pos ⟨rfl, by rw [c9_monsoonHarvest_eval]; norm_num⟩]
  rfl
